import Mathlib

/-!
The file transport/v2raywebsocket/conn.go.

A shallow embedding of the two connection adapters of `conn.go`:

* `WebsocketConn`, the byte-stream view of an established websocket connection;
* `EarlyWebsocketConn`, the adapter that dials on its first write and carries
  the first bytes as early data.

Go values are modelled by value.  The websocket library, the dialer and the
frame writer are collaborators: the read side of a connection is data (the
messages still to arrive), every other collaborator call is recorded in a
trace of `Event`s and answered by an `Env`.
-/

namespace V2rayWebsocket

/-! ## Values -/

/-- One octet of payload.  Arithmetic on it is reduced modulo 256 where it matters. -/
abbrev Byte := Nat

/-- A `net.Addr`. -/
abbrev Addr := String

/-- The Go `error` values this file distinguishes.  A Go `error` is an
`Option Error`, `none` being `nil`. -/
inductive Error where
  /-- `*websocket.CloseError` with its `Code` and `Text`. -/
  | closeError (code : Int) (text : String)
  /-- `io.EOF`. -/
  | eof
  /-- `net.ErrClosed`. -/
  | errClosed
  /-- `os.ErrInvalid`. -/
  | errInvalid
  /-- Any other error value. -/
  | other (msg : String)
  deriving DecidableEq, Repr

/-- `websocket.CloseNormalClosure`. -/
def CloseNormalClosure : Int := 1000

/-- `websocket.CloseAbnormalClosure`. -/
def CloseAbnormalClosure : Int := 1006

/-- `websocket.CloseNoStatusReceived`. -/
def CloseNoStatusReceived : Int := 1005

/-- `websocket.CloseMessage`, the opcode of a close control frame. -/
def CloseMessage : Nat := 8

/-- `websocket.IsCloseError(err, codes...)`: `err` is a `*CloseError` whose code
is one of `codes`. -/
def IsCloseError (err : Option Error) (codes : List Int) : Bool :=
  match err with
  | some (Error.closeError code _) => codes.any (fun c => decide (code = c))
  | _ => false

/-- `E.IsMulti(err, target)` on the error values of this model: `err` is `target`. -/
def IsMulti (err : Option Error) (target : Error) : Bool :=
  decide (err = some target)

/-- `wrapError` (conn.go, lines 217-225). -/
def wrapError (err : Option Error) : Option Error :=
  if IsCloseError err [CloseNormalClosure] then
    some Error.eof
  else if IsCloseError err [CloseAbnormalClosure] then
    some Error.errClosed
  else
    err

/-! ## base64.RawURLEncoding -/

/-- The URL-safe base64 alphabet of `encoding/base64`. -/
def encodeURL : List Char :=
  "ABCDEFGHIJKLMNOPQRSTUVWXYZabcdefghijklmnopqrstuvwxyz0123456789-_".toList

/-- The alphabet character of a 6-bit value. -/
def encodeURLChar (v : Nat) : Char :=
  encodeURL.getD (v % 64) 'A'

/-- The characters `base64.RawURLEncoding` produces: four per full group of
three bytes, then two or three for a last group of one or two bytes, and
no padding. -/
def rawURLEncodeChars : List Byte → List Char
  | a :: b :: c :: rest =>
    let val := (a % 256) * 65536 + (b % 256) * 256 + c % 256
    encodeURLChar (val / 262144) :: encodeURLChar (val / 4096) ::
      encodeURLChar (val / 64) :: encodeURLChar val :: rawURLEncodeChars rest
  | [a, b] =>
    let val := (a % 256) * 65536 + (b % 256) * 256
    [encodeURLChar (val / 262144), encodeURLChar (val / 4096), encodeURLChar (val / 64)]
  | [a] =>
    let val := (a % 256) * 65536
    [encodeURLChar (val / 262144), encodeURLChar (val / 4096)]
  | [] => []

/-- `base64.RawURLEncoding.EncodeToString`. -/
def RawURLEncoding.EncodeToString (src : List Byte) : String :=
  String.mk (rawURLEncodeChars src)

/-! ## The websocket connection (collaborator) -/

/-- Model of a `*websocket.Conn`.  The read side is data: the payloads of the
data messages that will still arrive, in arrival order, and the permanent
error `NextReader` reports once they are used up.  `avail` bounds, call by
call, how many bytes the connection's buffered reader can hand out in one
`Read` of a message reader (no bound once the list is used up), so that short
reads are covered. -/
structure websocket.Conn where
  id : Nat
  incoming : List (List Byte)
  readErr : Error
  avail : List Nat
  localAddr : Option Addr
  remoteAddr : Option Addr
  deriving DecidableEq, Repr

/-- `(*websocket.Conn).NextReader`: the reader of the next data message, or the
connection's read error.  The reader is modelled by the payload it still has
to deliver. -/
def websocket.Conn.NextReader (c : websocket.Conn) :
    websocket.Conn × Except Error (List Byte) :=
  match c.incoming with
  | [] => (c, Except.error c.readErr)
  | f :: fs => ({ c with incoming := fs }, Except.ok f)

/-- Result of one `Read` on a message reader. -/
structure ReaderRead where
  avail : List Nat
  reader : List Byte
  b : List Byte
  n : Nat
  err : Option Error
  deriving DecidableEq, Repr

/-- The number of bytes one `Read` of a message reader copies: as many as fit
in `b` and remain in the message, at most the next `avail` bound. -/
def messageReader.count (avail : List Nat) (remaining : List Byte) (b : List Byte) : Nat :=
  match avail with
  | [] => min b.length remaining.length
  | a :: _ => min (min b.length remaining.length) a

/-- `Read(b)` on the reader `NextReader` returned, `remaining` being the payload
it has not delivered yet.  While payload remains it copies up to `len(b)`
bytes of it to the front of `b` and returns their number with a nil error;
once the message is used up it returns `(0, io.EOF)`: the library's reader
reports the end of a message in a call of its own, after the last payload
byte has been returned. -/
def messageReader.Read (avail : List Nat) (remaining : List Byte) (b : List Byte) :
    ReaderRead :=
  if remaining = [] then
    { avail := avail, reader := remaining, b := b, n := 0, err := some Error.eof }
  else
    let k := messageReader.count avail remaining b
    { avail := avail.tail, reader := remaining.drop k,
      b := remaining.take k ++ b.drop k, n := k, err := none }

/-! ## WebsocketConn -/

/-- The `Writer` of writer.go as far as conn.go builds it: the boolean given at
construction (the connection pointer is the one `WebsocketConn` holds). -/
structure Writer where
  flag : Bool
  deriving DecidableEq, Repr

/-- `WebsocketConn` (conn.go, lines 18-23).  `reader` is the reader of the
message being consumed, `none` for the nil interface. -/
structure WebsocketConn where
  Conn : websocket.Conn
  Writer : Writer
  remoteAddr : Option Addr
  reader : Option (List Byte)
  deriving DecidableEq, Repr

/-- `NewServerConn` (conn.go, lines 25-31). -/
def NewServerConn (wsConn : websocket.Conn) (remoteAddr : Option Addr) : WebsocketConn :=
  { Conn := wsConn, remoteAddr := remoteAddr, Writer := { flag := true }, reader := none }

/-- What `WebsocketConn.Read` leaves behind and returns: the connection, the
caller's buffer, and the named results `n` and `err`. -/
structure ReadResult where
  c : WebsocketConn
  b : List Byte
  n : Nat
  err : Option Error
  deriving DecidableEq, Repr

/-- The `for` loop of `WebsocketConn.Read` (conn.go, lines 42-57), entered with
the current values of `c`, `b` and the named result `n`.  Fetching a reader
falls through to the read of the same iteration, which is the first thing the
recursive call does once `c.reader` is set. -/
def WebsocketConn.Read.loop (c : WebsocketConn) (b : List Byte) (n : Nat) : ReadResult :=
  match hr : c.reader with
  | none =>
    match hf : c.Conn.NextReader with
    | (conn, Except.error err) =>
      { c := { c with Conn := conn, reader := none }, b := b, n := n,
        err := wrapError (some err) }
    | (conn, Except.ok reader) =>
      WebsocketConn.Read.loop { c with Conn := conn, reader := some reader } b n
  | some reader =>
    let rd := messageReader.Read c.Conn.avail reader b
    if IsMulti rd.err Error.eof then
      WebsocketConn.Read.loop { c with Conn := { c.Conn with avail := rd.avail }, reader := none }
        rd.b rd.n
    else
      { c := { c with Conn := { c.Conn with avail := rd.avail }, reader := some rd.reader },
        b := rd.b, n := rd.n, err := wrapError rd.err }
termination_by 2 * c.Conn.incoming.length + (if c.reader = none then 0 else 1)
decreasing_by
  · simp_wf
    unfold websocket.Conn.NextReader at hf
    split at hf
    · simp at hf
    · rename_i f fs hfs
      simp only [Prod.mk.injEq, Except.ok.injEq] at hf
      rw [← hf.1, hr, hfs]
      simp
      omega
  · simp_wf
    simp [hr]

/-- `WebsocketConn.Read` (conn.go, lines 41-58). -/
def WebsocketConn.Read (c : WebsocketConn) (b : List Byte) : ReadResult :=
  WebsocketConn.Read.loop c b 0

/-! ## Collaborators: headers, dialer, frame writer, control frames -/

/-- An `http.Header`, a map from header name to values, as its list of entries. -/
structure Header where
  entries : List (String × List String)
  deriving DecidableEq, Repr

/-- `Header.Clone`: a copy; values are immutable here, so the header itself. -/
def Header.Clone (h : Header) : Header := h

/-- `Header.Set(key, value)`: the entry of the canonical form of `key` becomes
the single value `value`.  `canon` is `textproto.CanonicalMIMEHeaderKey`. -/
def Header.Set (canon : String → String) (h : Header) (key value : String) : Header :=
  { entries := (canon key, [value]) :: h.entries.filter (fun e => decide (e.1 ≠ canon key)) }

/-- `Header.Get(key)`: the first value of the canonical form of `key`, or `""`. -/
def Header.Get (canon : String → String) (h : Header) (key : String) : String :=
  match h.entries.find? (fun e => decide (e.1 = canon key)) with
  | some (_, v :: _) => v
  | _ => ""

/-- The part of an `*http.Response` a dial error can report. -/
structure Response where
  statusCode : Nat
  status : String
  deriving DecidableEq, Repr

/-- A call made on a collaborator. -/
inductive Event where
  /-- `c.dialer.DialContext(c.ctx, uri, headers)`. -/
  | dial (uri : String) (headers : Header)
  /-- One data frame with payload `data` handed to the connection by a `Writer`
  built with `flag`. -/
  | writeFrame (flag : Bool) (data : List Byte)
  /-- One data frame written from a buffer holding `data`, handed to the
  connection by a `Writer` built with `flag`. -/
  | writeFrameFromBuffer (flag : Bool) (data : List Byte)
  /-- `(*websocket.Conn).WriteControl(messageType, data, deadline)`. -/
  | writeControl (messageType : Nat) (data : List Byte)
  /-- `(*websocket.Conn).Close()`. -/
  | close
  /-- `(*websocket.Conn).SetReadDeadline(t)`. -/
  | setReadDeadline (t : Nat)
  /-- `(*websocket.Conn).SetWriteDeadline(t)`. -/
  | setWriteDeadline (t : Nat)
  deriving DecidableEq, Repr

/-- What `DialContext` returns. -/
structure DialResult where
  conn : websocket.Conn
  response : Option Response
  err : Option Error
  deriving DecidableEq, Repr

/-- The behaviour of everything conn.go calls but does not define.  Each answer
of a collaborator may depend on the calls made so far (the trace) and on the
arguments of the call. -/
structure Env where
  /-- The dialer's answer to `DialContext(ctx, uri, headers)`. -/
  dial : List Event → String → Header → DialResult
  /-- The connection's answer to one data frame. -/
  writeFrame : List Event → Bool → List Byte → Option Error
  /-- The connection's answer to one data frame written from a buffer. -/
  writeFrameFromBuffer : List Event → Bool → List Byte → Option Error
  /-- The connection's answer to `WriteControl`. -/
  writeControl : List Event → Nat → List Byte → Option Error
  /-- The connection's answer to `Close`. -/
  close : List Event → Option Error
  /-- The connection's answer to `SetReadDeadline`. -/
  setReadDeadline : List Event → Nat → Option Error
  /-- The connection's answer to `SetWriteDeadline`. -/
  setWriteDeadline : List Event → Nat → Option Error
  /-- `wrapDialError(response, err)` of the client, called with a non-nil `err`. -/
  wrapDialError : Option Response → Error → Option Error
  /-- `textproto.CanonicalMIMEHeaderKey`. -/
  canonicalMIMEHeaderKey : String → String
  /-- The package constant `frontHeadroom`. -/
  frontHeadroom : Nat

/-- `c.dialer.DialContext(c.ctx, uri, headers)`: the call is recorded and the
dialer answers. -/
def DialContext (env : Env) (t : List Event) (uri : String) (headers : Header) :
    List Event × DialResult :=
  (t ++ [Event.dial uri headers], env.dial t uri headers)

/-- `websocket.FormatCloseMessage(closeCode, text)`: the two bytes of the code,
big endian, then the text; empty for `CloseNoStatusReceived`. -/
def FormatCloseMessage (closeCode : Int) (text : List Byte) : List Byte :=
  if closeCode = CloseNoStatusReceived then
    []
  else
    (closeCode.toNat % 65536) / 256 :: (closeCode.toNat % 65536) % 256 :: text

/-- `(*websocket.Conn).WriteControl(messageType, data, deadline)`. -/
def websocket.Conn.WriteControl (env : Env) (t : List Event) (messageType : Nat)
    (data : List Byte) : List Event × Option Error :=
  (t ++ [Event.writeControl messageType data], env.writeControl t messageType data)

/-- `(*websocket.Conn).Close()`. -/
def websocket.Conn.Close (env : Env) (t : List Event) : List Event × Option Error :=
  (t ++ [Event.close], env.close t)

/-- Modelled from the spec: `Writer.Write` of writer.go, which is not among the
sources.  Spec 4.1: "`Write`/buffered write: delegates to an external
frame-writer collaborator that encodes the given bytes as one outgoing binary
frame"; spec 6: "`writeFrame(bytes) → error`".  One frame with payload `p` is
handed to the connection; all of `p` is reported written unless the
connection answers with an error. -/
def Writer.Write (env : Env) (w : Writer) (t : List Event) (p : List Byte) :
    List Event × Nat × Option Error :=
  match env.writeFrame t w.flag p with
  | some err => (t ++ [Event.writeFrame w.flag p], 0, some err)
  | none => (t ++ [Event.writeFrame w.flag p], p.length, none)

/-- Modelled from the spec: `Writer.WriteBuffer` of writer.go, which is not among
the sources.  Spec 6 lists it as an operation of its own,
"`writeFrameFromBuffer(buffer) → error`", next to "`writeFrame(bytes) → error`":
the buffer's bytes are handed to the connection as one frame written from the
buffer, and the connection's answer to that operation is returned.  Nothing
ties this answer to the one `Writer.Write` gets for the same bytes. -/
def Writer.WriteBuffer (env : Env) (w : Writer) (t : List Event) (buffer : List Byte) :
    List Event × Option Error :=
  (t ++ [Event.writeFrameFromBuffer w.flag buffer], env.writeFrameFromBuffer t w.flag buffer)

/-! ## WebsocketConn, continued -/

/-- `WebsocketConn.Close` (conn.go, lines 33-39).  The deadline
`time.Now().Add(C.TCPTimeout)` of the control frame is not modelled. -/
def WebsocketConn.Close (env : Env) (_c : WebsocketConn) (t : List Event) :
    List Event × Option Error :=
  let (t1, err) := websocket.Conn.WriteControl env t CloseMessage
    (FormatCloseMessage CloseNormalClosure [])
  if err ≠ none then
    websocket.Conn.Close env t1
  else
    (t1, none)

/-- `WebsocketConn.RemoteAddr` (conn.go, lines 60-65). -/
def WebsocketConn.RemoteAddr (c : WebsocketConn) : Option Addr :=
  if c.remoteAddr ≠ none then
    c.remoteAddr
  else
    c.Conn.remoteAddr

/-- `WebsocketConn.SetDeadline` (conn.go, lines 67-69). -/
def WebsocketConn.SetDeadline (_c : WebsocketConn) (_t : Nat) : Option Error :=
  some Error.errInvalid

/-- `WebsocketConn.FrontHeadroom` (conn.go, lines 71-73). -/
def WebsocketConn.FrontHeadroom (env : Env) (_c : WebsocketConn) : Nat :=
  env.frontHeadroom

/-- The bytes successive `Read` calls return, one call per caller buffer of
`bufs`: each call contributes `b[:n]`. -/
def WebsocketConn.readAll (c : WebsocketConn) : List (List Byte) → List (List Byte)
  | [] => []
  | b :: bufs =>
    let r := c.Read b
    r.b.take r.n :: WebsocketConn.readAll r.c bufs

/-- The payload bytes a connection has not returned yet: the rest of the
message being consumed, then the messages still to arrive. -/
def WebsocketConn.pending (c : WebsocketConn) : List Byte :=
  (c.reader.getD []) ++ c.Conn.incoming.flatten

/-- Two values of a `WebsocketConn` are the same connection: the same
`*websocket.Conn` (its identity, addresses and read error), the same `Writer`
and the same address override.  Only the read position may differ. -/
def WebsocketConn.sameConn (a b : WebsocketConn) : Prop :=
  a.Conn.id = b.Conn.id ∧ a.Conn.readErr = b.Conn.readErr ∧
    a.Conn.localAddr = b.Conn.localAddr ∧ a.Conn.remoteAddr = b.Conn.remoteAddr ∧
    a.Writer = b.Writer ∧ a.remoteAddr = b.remoteAddr

/-- The connection after the `Read` calls of `WebsocketConn.readAll`. -/
def WebsocketConn.afterReads (c : WebsocketConn) : List (List Byte) → WebsocketConn
  | [] => c
  | b :: bufs => WebsocketConn.afterReads (c.Read b).c bufs

/-- What one pass of the loop started with `n = 0` does: it returns without an
error exactly when payload is pending, and what it returns together with what
stays pending is what was pending. -/
def WebsocketConn.Read.Spec (c : WebsocketConn) (res : ReadResult) : Prop :=
  res.c.sameConn c ∧
  res.b.take res.n ++ res.c.pending = c.pending ∧
  ((c.pending = [] ∧ res.n = 0 ∧ res.err = wrapError (some c.Conn.readErr)) ∨
    (c.pending ≠ [] ∧ res.err = none))

/-! ## EarlyWebsocketConn -/

/-- The fields of `Client` that conn.go reads (the dialer is part of `Env`).
`maxEarlyData` is a `uint32`; `int(c.maxEarlyData)` is the same number, `int`
having 64 bits.  `headers` is a non-nil map. -/
structure Client where
  uri : String
  headers : Header
  maxEarlyData : Nat
  earlyDataHeaderName : String
  deriving DecidableEq, Repr

/-- `EarlyWebsocketConn` (conn.go, lines 75-80).  `conn` is `none` for the nil
pointer; `create` tells whether the channel `create` has been closed. -/
structure EarlyWebsocketConn extends Client where
  conn : Option WebsocketConn
  create : Bool
  deriving DecidableEq, Repr

/-- How a call ends: it returns, it panics, or it blocks for ever (a receive on
a channel nobody else can close in a sequential run). -/
inductive Outcome (α : Type) where
  | returned (v : α)
  | panicked
  | blocked
  deriving DecidableEq, Repr

/-- A call on an `EarlyWebsocketConn`: the adapter and the trace it leaves, and
how it ended. -/
structure Step (α : Type) where
  c : EarlyWebsocketConn
  trace : List Event
  out : Outcome α
  deriving DecidableEq, Repr

/-- `EarlyWebsocketConn.Read` (conn.go, lines 82-87).  Returns the buffer with
`n` and `err`. -/
def EarlyWebsocketConn.Read (c : EarlyWebsocketConn) (t : List Event) (b : List Byte) :
    Step (List Byte × Nat × Option Error) :=
  if c.conn = none ∧ c.create = false then
    { c := c, trace := t, out := Outcome.blocked }
  else
    match c.conn with
    | none => { c := c, trace := t, out := Outcome.panicked }
    | some conn =>
      let r := conn.Read b
      { c := { c with conn := some r.c }, trace := t, out := Outcome.returned (r.b, r.n, r.err) }

/-- `EarlyWebsocketConn.Write` (conn.go, lines 89-129). -/
def EarlyWebsocketConn.Write (env : Env) (c : EarlyWebsocketConn) (t : List Event)
    (b : List Byte) : Step (Nat × Option Error) :=
  match c.conn with
  | some conn =>
    let (t1, n, err) := conn.Writer.Write env t b
    { c := c, trace := t1, out := Outcome.returned (n, err) }
  | none =>
    let (earlyData, lateData) :=
      if b.length > c.maxEarlyData then
        (b.take c.maxEarlyData, b.drop c.maxEarlyData)
      else
        (b, [])
    let (t1, d) :=
      if earlyData.length > 0 then
        let earlyDataString := RawURLEncoding.EncodeToString earlyData
        if c.earlyDataHeaderName = "" then
          DialContext env t (c.uri ++ earlyDataString) c.headers
        else
          let headers := c.headers.Clone
          let headers := headers.Set env.canonicalMIMEHeaderKey c.earlyDataHeaderName
            earlyDataString
          DialContext env t c.uri headers
      else
        DialContext env t c.uri c.headers
    match d.err with
    | some err => { c := c, trace := t1, out := Outcome.returned (0, env.wrapDialError d.response err) }
    | none =>
      let conn : WebsocketConn :=
        { Conn := d.conn, Writer := { flag := false }, remoteAddr := none, reader := none }
      let c1 : EarlyWebsocketConn := { c with conn := some conn }
      if c1.create then
        { c := c1, trace := t1, out := Outcome.panicked }
      else
        let c2 : EarlyWebsocketConn := { c1 with create := true }
        if lateData.length > 0 then
          let (t2, _, err) := conn.Writer.Write env t1 lateData
          if err ≠ none then
            { c := c2, trace := t2, out := Outcome.returned (0, err) }
          else
            { c := c2, trace := t2, out := Outcome.returned (b.length, none) }
        else
          { c := c2, trace := t1, out := Outcome.returned (b.length, none) }

/-- `EarlyWebsocketConn.WriteBuffer` (conn.go, lines 131-169); `buffer` is
`buffer.Bytes()`. -/
def EarlyWebsocketConn.WriteBuffer (env : Env) (c : EarlyWebsocketConn) (t : List Event)
    (buffer : List Byte) : Step (Option Error) :=
  match c.conn with
  | some conn =>
    let (t1, err) := conn.Writer.WriteBuffer env t buffer
    { c := c, trace := t1, out := Outcome.returned err }
  | none =>
    let (earlyData, lateData) :=
      if buffer.length > c.maxEarlyData then
        (buffer.take c.maxEarlyData, buffer.drop c.maxEarlyData)
      else
        (buffer, [])
    let (t1, d) :=
      if earlyData.length > 0 then
        let earlyDataString := RawURLEncoding.EncodeToString earlyData
        if c.earlyDataHeaderName = "" then
          DialContext env t (c.uri ++ earlyDataString) c.headers
        else
          let headers := c.headers.Clone
          let headers := headers.Set env.canonicalMIMEHeaderKey c.earlyDataHeaderName
            earlyDataString
          DialContext env t c.uri headers
      else
        DialContext env t c.uri c.headers
    match d.err with
    | some err => { c := c, trace := t1, out := Outcome.returned (env.wrapDialError d.response err) }
    | none =>
      let conn : WebsocketConn :=
        { Conn := d.conn, Writer := { flag := false }, remoteAddr := none, reader := none }
      let c1 : EarlyWebsocketConn := { c with conn := some conn }
      if c1.create then
        { c := c1, trace := t1, out := Outcome.panicked }
      else
        let c2 : EarlyWebsocketConn := { c1 with create := true }
        if lateData.length > 0 then
          let (t2, _, err) := conn.Writer.Write env t1 lateData
          { c := c2, trace := t2, out := Outcome.returned err }
        else
          { c := c2, trace := t1, out := Outcome.returned none }

/-- `EarlyWebsocketConn.Close` (conn.go, lines 171-176). -/
def EarlyWebsocketConn.Close (env : Env) (c : EarlyWebsocketConn) (t : List Event) :
    Step (Option Error) :=
  match c.conn with
  | none => { c := c, trace := t, out := Outcome.returned none }
  | some conn =>
    let (t1, err) := conn.Close env t
    { c := c, trace := t1, out := Outcome.returned err }

/-- `EarlyWebsocketConn.LocalAddr` (conn.go, lines 178-183). -/
def EarlyWebsocketConn.LocalAddr (c : EarlyWebsocketConn) (t : List Event) :
    Step (Option Addr) :=
  match c.conn with
  | none => { c := c, trace := t, out := Outcome.returned none }
  | some conn => { c := c, trace := t, out := Outcome.returned conn.Conn.localAddr }

/-- `EarlyWebsocketConn.RemoteAddr` (conn.go, lines 185-190). -/
def EarlyWebsocketConn.RemoteAddr (c : EarlyWebsocketConn) (t : List Event) :
    Step (Option Addr) :=
  match c.conn with
  | none => { c := c, trace := t, out := Outcome.returned none }
  | some conn => { c := c, trace := t, out := Outcome.returned conn.RemoteAddr }

/-- `EarlyWebsocketConn.SetDeadline` (conn.go, lines 192-197). -/
def EarlyWebsocketConn.SetDeadline (c : EarlyWebsocketConn) (t : List Event) (d : Nat) :
    Step (Option Error) :=
  match c.conn with
  | none => { c := c, trace := t, out := Outcome.returned (some Error.errInvalid) }
  | some conn => { c := c, trace := t, out := Outcome.returned (conn.SetDeadline d) }

/-- `EarlyWebsocketConn.SetReadDeadline` (conn.go, lines 199-204). -/
def EarlyWebsocketConn.SetReadDeadline (env : Env) (c : EarlyWebsocketConn) (t : List Event)
    (d : Nat) : Step (Option Error) :=
  match c.conn with
  | none => { c := c, trace := t, out := Outcome.returned (some Error.errInvalid) }
  | some _ =>
    { c := c, trace := t ++ [Event.setReadDeadline d],
      out := Outcome.returned (env.setReadDeadline t d) }

/-- `EarlyWebsocketConn.SetWriteDeadline` (conn.go, lines 206-211). -/
def EarlyWebsocketConn.SetWriteDeadline (env : Env) (c : EarlyWebsocketConn) (t : List Event)
    (d : Nat) : Step (Option Error) :=
  match c.conn with
  | none => { c := c, trace := t, out := Outcome.returned (some Error.errInvalid) }
  | some _ =>
    { c := c, trace := t ++ [Event.setWriteDeadline d],
      out := Outcome.returned (env.setWriteDeadline t d) }

/-- `EarlyWebsocketConn.FrontHeadroom` (conn.go, lines 213-215). -/
def EarlyWebsocketConn.FrontHeadroom (env : Env) (c : EarlyWebsocketConn) (t : List Event) :
    Step Nat :=
  { c := c, trace := t, out := Outcome.returned env.frontHeadroom }

/-- Modelled from the spec: the adapter as it is created (its constructor is in
client.go, which is not among the sources).  Spec 3 and 4.2: the adapter starts
`Unconnected`, with a lazily-populated inner adapter that is absent and a
one-shot signal that has not been released. -/
def EarlyWebsocketConn.new (client : Client) : EarlyWebsocketConn :=
  { toClient := client, conn := none, create := false }

/-! ## Sequential runs -/

/-- A call a user of an `EarlyWebsocketConn` can make, with its arguments. -/
inductive Op where
  | read (b : List Byte)
  | write (b : List Byte)
  | writeBuffer (buffer : List Byte)
  | close
  | localAddr
  | remoteAddr
  | setDeadline (t : Nat)
  | setReadDeadline (t : Nat)
  | setWriteDeadline (t : Nat)
  | frontHeadroom
  deriving DecidableEq, Repr

/-- The adapter and the trace between two calls. -/
structure Config where
  c : EarlyWebsocketConn
  trace : List Event
  deriving DecidableEq, Repr

/-- How a call ended, its result forgotten. -/
inductive Ending where
  | returned
  | panicked
  | blocked
  deriving DecidableEq, Repr

/-- Forget the result of a call. -/
def Step.config {α : Type} (s : Step α) : Config × Ending :=
  ({ c := s.c, trace := s.trace },
    match s.out with
    | Outcome.returned _ => Ending.returned
    | Outcome.panicked => Ending.panicked
    | Outcome.blocked => Ending.blocked)

/-- One call of a run. -/
def step (env : Env) (k : Config) : Op → Config × Ending
  | Op.read b => (k.c.Read k.trace b).config
  | Op.write b => (k.c.Write env k.trace b).config
  | Op.writeBuffer buffer => (k.c.WriteBuffer env k.trace buffer).config
  | Op.close => (k.c.Close env k.trace).config
  | Op.localAddr => (k.c.LocalAddr k.trace).config
  | Op.remoteAddr => (k.c.RemoteAddr k.trace).config
  | Op.setDeadline t => (k.c.SetDeadline k.trace t).config
  | Op.setReadDeadline t => (k.c.SetReadDeadline env k.trace t).config
  | Op.setWriteDeadline t => (k.c.SetWriteDeadline env k.trace t).config
  | Op.frontHeadroom => (k.c.FrontHeadroom env k.trace).config

/-- One call of a run with the configuration before it, the configuration it
left and how it ended. -/
structure Transition where
  before : Config
  op : Op
  after : Config
  ending : Ending
  deriving DecidableEq, Repr

/-- A sequential run: the calls of `ops` one after the other, from `k`.  The run
ends with the first call that does not return. -/
def transitions (env : Env) (k : Config) : List Op → List Transition
  | [] => []
  | op :: ops =>
    { before := k, op := op, after := (step env k op).1, ending := (step env k op).2 } ::
      (if (step env k op).2 = Ending.returned then transitions env (step env k op).1 ops
       else [])

/-- For each `DialContext` call of a trace, in order, whether the dialer
answered it without an error.  `pre` is the trace before the one examined. -/
def dialResults (env : Env) (pre : List Event) : List Event → List Bool
  | [] => []
  | Event.dial uri headers :: rest =>
    decide ((env.dial pre uri headers).err = none) ::
      dialResults env (pre ++ [Event.dial uri headers]) rest
  | Event.writeFrame flag data :: rest =>
    dialResults env (pre ++ [Event.writeFrame flag data]) rest
  | Event.writeFrameFromBuffer flag data :: rest =>
    dialResults env (pre ++ [Event.writeFrameFromBuffer flag data]) rest
  | Event.writeControl messageType data :: rest =>
    dialResults env (pre ++ [Event.writeControl messageType data]) rest
  | Event.close :: rest => dialResults env (pre ++ [Event.close]) rest
  | Event.setReadDeadline d :: rest => dialResults env (pre ++ [Event.setReadDeadline d]) rest
  | Event.setWriteDeadline d :: rest => dialResults env (pre ++ [Event.setWriteDeadline d]) rest

/-- The result of a call with a function applied to what it returned. -/
def Outcome.map {α β : Type} (f : α → β) : Outcome α → Outcome β
  | Outcome.returned v => Outcome.returned (f v)
  | Outcome.panicked => Outcome.panicked
  | Outcome.blocked => Outcome.blocked

/-- The inner connection `Write` and `WriteBuffer` install after a dial that
returned `conn` (conn.go, lines 120 and 163). -/
def installed (conn : websocket.Conn) : WebsocketConn :=
  { Conn := conn, Writer := { flag := false }, remoteAddr := none, reader := none }

/-- The URI and headers of the dial a first write of `b` makes, read off the three
`DialContext` calls of `Write` and `WriteBuffer`. -/
def EarlyWebsocketConn.firstDial (env : Env) (c : EarlyWebsocketConn) (b : List Byte) :
    String × Header :=
  if (if b.length > c.maxEarlyData then b.take c.maxEarlyData else b).length > 0 then
    if c.earlyDataHeaderName = "" then
      (c.uri ++ RawURLEncoding.EncodeToString
        (if b.length > c.maxEarlyData then b.take c.maxEarlyData else b), c.headers)
    else
      (c.uri, c.headers.Clone.Set env.canonicalMIMEHeaderKey c.earlyDataHeaderName
        (RawURLEncoding.EncodeToString
          (if b.length > c.maxEarlyData then b.take c.maxEarlyData else b)))
  else
    (c.uri, c.headers)

/-- The call installed the inner connection: there was none before it and there
is one after it. -/
def Transition.installs (tr : Transition) : Bool :=
  tr.before.c.conn.isNone && tr.after.c.conn.isSome

/-- What holds between two calls of a run: `create` is closed exactly when the
inner connection is present, every dial but the last failed, and the last one
succeeded exactly when the inner connection is present. -/
def Config.Inv (env : Env) (k : Config) : Prop :=
  k.c.create = k.c.conn.isSome ∧
  ∃ m, dialResults env [] k.trace =
    List.replicate m false ++ (if k.c.conn.isSome then [true] else [])

/-! ## Sample values -/

/-- A connection with one message, "hi", to arrive before the peer closes normally. -/
def sampleConn : websocket.Conn :=
  { id := 7, incoming := [[104, 105]], readErr := Error.closeError CloseNormalClosure "",
    avail := [], localAddr := some "10.0.0.2:50000", remoteAddr := some "10.0.0.1:443" }

/-- Collaborators that answer every dial with `sampleConn` and the error
`dialErr`, and every data frame, written from a slice or from a buffer, with
`writeErr`. -/
def sampleEnv (dialErr writeErr : Option Error) : Env :=
  { dial := fun _ _ _ =>
      { conn := sampleConn, response := some { statusCode := 502, status := "Bad Gateway" },
        err := dialErr }
    writeFrame := fun _ _ _ => writeErr
    writeFrameFromBuffer := fun _ _ _ => writeErr
    writeControl := fun _ _ _ => none
    close := fun _ => none
    setReadDeadline := fun _ _ => none
    setWriteDeadline := fun _ _ => none
    wrapDialError := fun response err =>
      match response with
      | none => some err
      | some r => some (Error.other (r.status))
    canonicalMIMEHeaderKey := fun key => key
    frontHeadroom := 14 }

/-- A client that carries up to 16 bytes of early data at the end of the URI. -/
def sampleClient : Client :=
  { uri := "ws://example.org/ws?ed=", headers := { entries := [("Host", ["example.org"])] },
    maxEarlyData := 16, earlyDataHeaderName := "" }

/-- A client that carries up to 16 bytes of early data in a header. -/
def sampleHeaderClient : Client :=
  { uri := "ws://example.org/ws", headers := { entries := [("Host", ["example.org"])] },
    maxEarlyData := 16, earlyDataHeaderName := "Sec-WebSocket-Protocol" }

/-- A server-side connection with three messages to arrive, of two, zero and
three bytes, whose transport hands out one byte at the first read. -/
def sampleServerConn : WebsocketConn :=
  NewServerConn
    { id := 3, incoming := [[1, 2], [], [3, 4, 5]],
      readErr := Error.closeError CloseNormalClosure "bye", avail := [1],
      localAddr := none, remoteAddr := none } none

/-- A connection whose current message and only pending message are used up
and whose peer has closed normally. -/
def sampleDrainedConn : WebsocketConn :=
  { Conn := { id := 4, incoming := [[]], readErr := Error.closeError CloseNormalClosure "bye",
              avail := [], localAddr := none, remoteAddr := none },
    Writer := { flag := true }, remoteAddr := none, reader := some [] }

/-- Collaborators for which sending a control frame fails and closing the
transport reports `net.ErrClosed`. -/
def sampleClosingEnv : Env :=
  { sampleEnv none none with
    writeControl := fun _ _ _ => some (Error.other "i/o timeout")
    close := fun _ => some Error.errClosed }

/-- An adapter whose inner connection is present: `sampleConn`, installed by an
earlier first write. -/
def sampleConnected : EarlyWebsocketConn :=
  { toClient := sampleClient, conn := some (installed sampleConn), create := true }

/-- Collaborators whose connection has sent its close frame: a frame written
from a slice is refused, a frame written from a buffer is accepted. -/
def sampleSplitEnv : Env :=
  { sampleEnv none none with
    writeFrame := fun _ _ _ => some (Error.other "websocket: close sent") }

/-- Collaborators whose dialer refuses the first dial and accepts every later
one, and whose connection fails every data frame. -/
def sampleRetryEnv : Env :=
  { sampleEnv none (some (Error.other "broken pipe")) with
    dial := fun t _ _ =>
      { conn := sampleConn, response := none,
        err := if t.isEmpty then some (Error.other "connection refused") else none } }


/-! ## The message reader -/

theorem messageReader.count_le (avail : List Nat) (r b : List Byte) :
    messageReader.count avail r b ≤ r.length ∧ messageReader.count avail r b ≤ b.length := by
  unfold messageReader.count
  split <;> omega

theorem messageReader.Read_eof (avail : List Nat) (r b : List Byte)
    (h : IsMulti (messageReader.Read avail r b).err Error.eof = true) :
    r = [] ∧ (messageReader.Read avail r b).n = 0 ∧ (messageReader.Read avail r b).b = b ∧
      (messageReader.Read avail r b).avail = avail := by
  by_cases hr : r = []
  · simp [messageReader.Read, hr]
  · simp [messageReader.Read, hr, IsMulti] at h

theorem messageReader.Read_data (avail : List Nat) (r b : List Byte)
    (h : ¬ IsMulti (messageReader.Read avail r b).err Error.eof = true) :
    (messageReader.Read avail r b).err = none ∧
    (messageReader.Read avail r b).b.take (messageReader.Read avail r b).n ++
      (messageReader.Read avail r b).reader = r := by
  by_cases hr : r = []
  · simp [messageReader.Read, hr, IsMulti] at h
  · have hk := (messageReader.count_le avail r b).1
    simp only [messageReader.Read, hr, if_false, true_and]
    rw [List.take_append_of_le_length (by simp; omega)]
    simp [List.take_take]

theorem websocket.Conn.NextReader_error (c conn : websocket.Conn) (err : Error)
    (h : c.NextReader = (conn, Except.error err)) :
    conn = c ∧ err = c.readErr ∧ c.incoming = [] := by
  unfold websocket.Conn.NextReader at h
  split at h
  · rename_i hi
    simp at h
    exact ⟨h.1.symm, h.2.symm, hi⟩
  · simp at h

theorem websocket.Conn.NextReader_ok (c conn : websocket.Conn) (reader : List Byte)
    (h : c.NextReader = (conn, Except.ok reader)) :
    c.incoming = reader :: conn.incoming ∧ conn.readErr = c.readErr := by
  unfold websocket.Conn.NextReader at h
  split at h
  · simp at h
  · rename_i f fs hi
    simp at h
    obtain ⟨h1, h2⟩ := h
    subst h1 h2
    exact ⟨hi, rfl⟩

/-! ## WebsocketConn.Read -/

theorem WebsocketConn.Read.loop_fetch_error (c : WebsocketConn) (b : List Byte) (n : Nat)
    (hr : c.reader = none) (hi : c.Conn.incoming = []) :
    WebsocketConn.Read.loop c b n =
      { c := c, b := b, n := n, err := wrapError (some c.Conn.readErr) } := by
  rw [WebsocketConn.Read.loop]
  split
  · split
    · rename_i conn err heq
      obtain ⟨h1, h2, -⟩ := websocket.Conn.NextReader_error _ _ _ heq
      subst h1 h2
      cases c
      simp_all
    · rename_i conn rd heq
      have := (websocket.Conn.NextReader_ok _ _ _ heq).1
      simp [hi] at this
  · simp_all

theorem WebsocketConn.Read.loop_fetch_ok (c : WebsocketConn) (b : List Byte) (n : Nat)
    (f : List Byte) (fs : List (List Byte))
    (hr : c.reader = none) (hi : c.Conn.incoming = f :: fs) :
    WebsocketConn.Read.loop c b n =
      WebsocketConn.Read.loop
        { c with Conn := { c.Conn with incoming := fs }, reader := some f } b n := by
  rw [WebsocketConn.Read.loop]
  split
  · split
    · rename_i conn err heq
      have := (websocket.Conn.NextReader_error _ _ _ heq).2.2
      simp [hi] at this
    · rename_i conn rd heq
      have h : conn = { c.Conn with incoming := fs } ∧ rd = f := by
        simp [websocket.Conn.NextReader, hi] at heq
        exact ⟨heq.1.symm, heq.2.symm⟩
      rw [h.1, h.2]
  · simp_all

theorem WebsocketConn.Read.loop_eof (c : WebsocketConn) (b : List Byte) (n : Nat)
    (hr : c.reader = some []) :
    WebsocketConn.Read.loop c b n = WebsocketConn.Read.loop { c with reader := none } b 0 := by
  rw [WebsocketConn.Read.loop]
  split
  · simp_all
  · rename_i rd heq
    have : rd = [] := by simp_all
    subst this
    simp [messageReader.Read, IsMulti]

theorem WebsocketConn.Read.loop_data (c : WebsocketConn) (b : List Byte) (n : Nat)
    (r : List Byte) (hr : c.reader = some r) (hne : r ≠ []) :
    WebsocketConn.Read.loop c b n =
      { c := { c with Conn := { c.Conn with avail := c.Conn.avail.tail },
                      reader := some (r.drop (messageReader.count c.Conn.avail r b)) },
        b := r.take (messageReader.count c.Conn.avail r b) ++
          b.drop (messageReader.count c.Conn.avail r b),
        n := messageReader.count c.Conn.avail r b, err := none } := by
  rw [WebsocketConn.Read.loop]
  split
  · simp_all
  · rename_i rd heq
    have : rd = r := by simp_all
    subst this
    simp [messageReader.Read, IsMulti, hne, wrapError, IsCloseError]

theorem WebsocketConn.Read.loop_spec_fetch (fs : List (List Byte)) :
    ∀ (c : WebsocketConn) (b : List Byte), c.reader = none → c.Conn.incoming = fs →
      WebsocketConn.Read.Spec c (WebsocketConn.Read.loop c b 0) := by
  induction fs with
  | nil =>
    intro c b hr hi
    rw [WebsocketConn.Read.loop_fetch_error c b 0 hr hi]
    simp [WebsocketConn.Read.Spec, WebsocketConn.sameConn, WebsocketConn.pending, hr, hi]
  | cons f fs ih =>
    intro c b hr hi
    rw [WebsocketConn.Read.loop_fetch_ok c b 0 f fs hr hi]
    by_cases hf : f = []
    · subst hf
      rw [WebsocketConn.Read.loop_eof _ b 0 rfl]
      have := ih { c with Conn := { c.Conn with incoming := fs }, reader := none } b rfl rfl
      simpa [WebsocketConn.Read.Spec, WebsocketConn.sameConn, WebsocketConn.pending, hr, hi]
        using this
    · rw [WebsocketConn.Read.loop_data _ b 0 f rfl hf]
      have hk := (messageReader.count_le c.Conn.avail f b).1
      simp [WebsocketConn.Read.Spec, WebsocketConn.sameConn, WebsocketConn.pending, hr, hi, hf]
      rw [List.take_append_of_le_length (by simp; omega)]
      simp [List.take_take, ← List.append_assoc]

theorem WebsocketConn.Read.loop_spec (c : WebsocketConn) (b : List Byte) :
    WebsocketConn.Read.Spec c (WebsocketConn.Read.loop c b 0) := by
  cases hr : c.reader with
  | none => exact WebsocketConn.Read.loop_spec_fetch _ c b hr rfl
  | some r =>
    by_cases hf : r = []
    · subst hf
      rw [WebsocketConn.Read.loop_eof c b 0 hr]
      have := WebsocketConn.Read.loop_spec_fetch _ { c with reader := none } b rfl rfl
      simpa [WebsocketConn.Read.Spec, WebsocketConn.sameConn, WebsocketConn.pending, hr]
        using this
    · rw [WebsocketConn.Read.loop_data c b 0 r hr hf]
      have hk := (messageReader.count_le c.Conn.avail r b).1
      simp [WebsocketConn.Read.Spec, WebsocketConn.sameConn, WebsocketConn.pending, hr, hf]
      rw [List.take_append_of_le_length (by simp; omega)]
      simp [List.take_take, ← List.append_assoc]

theorem WebsocketConn.Read_spec (c : WebsocketConn) (b : List Byte) :
    WebsocketConn.Read.Spec c (c.Read b) :=
  WebsocketConn.Read.loop_spec c b

theorem WebsocketConn.readAll_pending (bufs : List (List Byte)) :
    ∀ c : WebsocketConn,
      (c.readAll bufs).flatten ++ (c.afterReads bufs).pending = c.pending := by
  induction bufs with
  | nil => intro c; simp [WebsocketConn.readAll, WebsocketConn.afterReads]
  | cons b bufs ih =>
    intro c
    have h := (WebsocketConn.Read_spec c b).2.1
    simp only [WebsocketConn.readAll, WebsocketConn.afterReads, List.flatten_cons,
      List.append_assoc]
    rw [ih, h]

/-! ## Claims -/

/-- C1: for every connection state (any incoming messages, empty ones included,
a message possibly half consumed, any short-read pattern of the transport) and
every sequence of caller buffers, the bytes the successive `Read` calls return,
concatenated in call order, followed by the payload still pending afterwards,
are exactly the payload that was pending before; so they are a prefix of the
pending payload, and for a connection that has not started a message, a prefix
of the concatenation of the incoming messages in arrival order. -/
theorem WebsocketConn.readAll_prefix (c : WebsocketConn) (bufs : List (List Byte)) :
    (c.readAll bufs).flatten ++ (c.afterReads bufs).pending = c.pending ∧
    (c.readAll bufs).flatten <+: c.pending ∧
    (c.reader = none → (c.readAll bufs).flatten <+: c.Conn.incoming.flatten) := by
  have h := WebsocketConn.readAll_pending bufs c
  refine ⟨h, ⟨_, h⟩, ?_⟩
  intro hr
  have hp : c.pending = c.Conn.incoming.flatten := by simp [WebsocketConn.pending, hr]
  rw [← hp]
  exact ⟨_, h⟩

/-- C4: `wrapError` turns a close error with the normal-closure code into
`io.EOF`, a close error with the abnormal-closure code into `net.ErrClosed`,
and returns every other error, nil included, unchanged. -/
theorem wrapError_spec (err : Option Error) :
    (∀ text, err = some (Error.closeError CloseNormalClosure text) →
      wrapError err = some Error.eof) ∧
    (∀ text, err = some (Error.closeError CloseAbnormalClosure text) →
      wrapError err = some Error.errClosed) ∧
    ((∀ text, err ≠ some (Error.closeError CloseNormalClosure text)) →
      (∀ text, err ≠ some (Error.closeError CloseAbnormalClosure text)) →
      wrapError err = err) := by
  refine ⟨?_, ?_, ?_⟩
  · intro text h
    subst h
    simp [wrapError, IsCloseError]
  · intro text h
    subst h
    simp [wrapError, IsCloseError, CloseNormalClosure, CloseAbnormalClosure]
  · intro h1 h2
    match err, h1, h2 with
    | none, _, _ => simp [wrapError, IsCloseError]
    | some (Error.closeError code text), h1, h2 =>
      have hn : code ≠ CloseNormalClosure := fun h => h1 text (by rw [h])
      have ha : code ≠ CloseAbnormalClosure := fun h => h2 text (by rw [h])
      simp [wrapError, IsCloseError, hn, ha]
    | some Error.eof, _, _ => simp [wrapError, IsCloseError]
    | some Error.errClosed, _, _ => simp [wrapError, IsCloseError]
    | some Error.errInvalid, _, _ => simp [wrapError, IsCloseError]
    | some (Error.other msg), _, _ => simp [wrapError, IsCloseError]

/-- C5: when the transport answers a fetch of the next message with a
normal-closure close error, `Read` returns `n = 0` and `io.EOF`: every error
a `Read` returns on such a connection is `io.EOF` with `n = 0`, and that is
what `Read` returns whenever no payload is pending, also when it first has to
use up the current message (and empty messages after it) in the same call. -/
theorem WebsocketConn.Read_normal_closure (c : WebsocketConn) (b : List Byte) (text : String)
    (hclose : c.Conn.readErr = Error.closeError CloseNormalClosure text) :
    ((c.Read b).err ≠ none → (c.Read b).n = 0 ∧ (c.Read b).err = some Error.eof) ∧
    (c.pending = [] → (c.Read b).n = 0 ∧ (c.Read b).err = some Error.eof) := by
  have hw : wrapError (some c.Conn.readErr) = some Error.eof := by
    rw [hclose]
    simp [wrapError, IsCloseError]
  obtain ⟨-, -, h⟩ := WebsocketConn.Read_spec c b
  rw [hw] at h
  constructor
  · intro he
    rcases h with ⟨-, hn, herr⟩ | ⟨-, herr⟩
    · exact ⟨hn, herr⟩
    · exact absurd herr he
  · intro hp
    rcases h with ⟨-, hn, herr⟩ | ⟨hne, -⟩
    · exact ⟨hn, herr⟩
    · exact absurd hp hne

/-- C10: `Close` first sends the normal-closure close frame (opcode 8, payload
the code 1000 in two bytes).  When the send succeeds `Close` returns nil and
does not close the transport; when it fails `Close` closes the transport
once and returns what that close returned, whatever the error of the send
was. -/
theorem WebsocketConn.Close_spec (env : Env) (c : WebsocketConn) (t : List Event) :
    FormatCloseMessage CloseNormalClosure [] = [3, 232] ∧
    (env.writeControl t CloseMessage [3, 232] = none →
      c.Close env t = (t ++ [Event.writeControl 8 [3, 232]], none)) ∧
    (∀ e, env.writeControl t CloseMessage [3, 232] = some e →
      c.Close env t =
        (t ++ [Event.writeControl 8 [3, 232], Event.close],
          env.close (t ++ [Event.writeControl 8 [3, 232]]))) := by
  have hf : FormatCloseMessage CloseNormalClosure [] = [3, 232] := by decide
  refine ⟨hf, ?_, ?_⟩
  · intro h
    simp only [CloseMessage] at h
    simp [WebsocketConn.Close, websocket.Conn.WriteControl, hf, h, CloseMessage]
  · intro e h
    simp only [CloseMessage] at h
    simp [WebsocketConn.Close, websocket.Conn.WriteControl, websocket.Conn.Close, hf, h,
      CloseMessage]

/-! ## EarlyWebsocketConn: the first write -/

theorem EarlyWebsocketConn.Write_first (env : Env) (c : EarlyWebsocketConn) (t : List Event)
    (b : List Byte) (hconn : c.conn = none) :
    c.Write env t b =
      match (env.dial t (c.firstDial env b).1 (c.firstDial env b).2).err with
      | some err =>
        { c := c, trace := t ++ [Event.dial (c.firstDial env b).1 (c.firstDial env b).2],
          out := Outcome.returned (0, env.wrapDialError
            (env.dial t (c.firstDial env b).1 (c.firstDial env b).2).response err) }
      | none =>
        if c.create then
          { c := { c with conn := some (installed
              (env.dial t (c.firstDial env b).1 (c.firstDial env b).2).conn) },
            trace := t ++ [Event.dial (c.firstDial env b).1 (c.firstDial env b).2],
            out := Outcome.panicked }
        else if b.length > c.maxEarlyData then
          { c := { c with conn := some (installed
              (env.dial t (c.firstDial env b).1 (c.firstDial env b).2).conn), create := true },
            trace := t ++ [Event.dial (c.firstDial env b).1 (c.firstDial env b).2,
              Event.writeFrame false (b.drop c.maxEarlyData)],
            out := Outcome.returned
              (match env.writeFrame
                  (t ++ [Event.dial (c.firstDial env b).1 (c.firstDial env b).2]) false
                  (b.drop c.maxEarlyData) with
                | some err => (0, some err)
                | none => (b.length, none)) }
        else
          { c := { c with conn := some (installed
              (env.dial t (c.firstDial env b).1 (c.firstDial env b).2).conn), create := true },
            trace := t ++ [Event.dial (c.firstDial env b).1 (c.firstDial env b).2],
            out := Outcome.returned (b.length, none) } := by
  unfold EarlyWebsocketConn.Write EarlyWebsocketConn.firstDial
  simp only [hconn]
  by_cases hlen : b.length > c.maxEarlyData <;>
  by_cases hmax : 0 < c.maxEarlyData <;>
  by_cases hb : b = [] <;>
  by_cases hname : c.earlyDataHeaderName = "" <;>
  by_cases hcreate : c.create = true <;>
  simp [hlen, hmax, hb, hname, hcreate, DialContext, Writer.Write, installed, List.length_pos] <;>
  (try cases hd : (env.dial t _ _).err) <;> simp [hd] <;>
  (try cases hw : env.writeFrame _ _ _) <;> simp [hw]

theorem EarlyWebsocketConn.WriteBuffer_first (env : Env) (c : EarlyWebsocketConn)
    (t : List Event) (b : List Byte) (hconn : c.conn = none) :
    c.WriteBuffer env t b =
      match (env.dial t (c.firstDial env b).1 (c.firstDial env b).2).err with
      | some err =>
        { c := c, trace := t ++ [Event.dial (c.firstDial env b).1 (c.firstDial env b).2],
          out := Outcome.returned (env.wrapDialError
            (env.dial t (c.firstDial env b).1 (c.firstDial env b).2).response err) }
      | none =>
        if c.create then
          { c := { c with conn := some (installed
              (env.dial t (c.firstDial env b).1 (c.firstDial env b).2).conn) },
            trace := t ++ [Event.dial (c.firstDial env b).1 (c.firstDial env b).2],
            out := Outcome.panicked }
        else if b.length > c.maxEarlyData then
          { c := { c with conn := some (installed
              (env.dial t (c.firstDial env b).1 (c.firstDial env b).2).conn), create := true },
            trace := t ++ [Event.dial (c.firstDial env b).1 (c.firstDial env b).2,
              Event.writeFrame false (b.drop c.maxEarlyData)],
            out := Outcome.returned
              (env.writeFrame
                  (t ++ [Event.dial (c.firstDial env b).1 (c.firstDial env b).2]) false
                  (b.drop c.maxEarlyData)) }
        else
          { c := { c with conn := some (installed
              (env.dial t (c.firstDial env b).1 (c.firstDial env b).2).conn), create := true },
            trace := t ++ [Event.dial (c.firstDial env b).1 (c.firstDial env b).2],
            out := Outcome.returned none } := by
  unfold EarlyWebsocketConn.WriteBuffer EarlyWebsocketConn.firstDial
  simp only [hconn]
  by_cases hlen : b.length > c.maxEarlyData <;>
  by_cases hmax : 0 < c.maxEarlyData <;>
  by_cases hb : b = [] <;>
  by_cases hname : c.earlyDataHeaderName = "" <;>
  by_cases hcreate : c.create = true <;>
  simp [hlen, hmax, hb, hname, hcreate, DialContext, Writer.Write, installed, List.length_pos] <;>
  (try cases hd : (env.dial t _ _).err) <;> simp [hd] <;>
  (try cases hw : env.writeFrame _ _ _) <;> simp [hw]

theorem EarlyWebsocketConn.firstDial_short (env : Env) (c : EarlyWebsocketConn) (b : List Byte)
    (hlen : b.length ≤ c.maxEarlyData) :
    c.firstDial env b =
      if b = [] then (c.uri, c.headers)
      else if c.earlyDataHeaderName = "" then
        (c.uri ++ RawURLEncoding.EncodeToString b, c.headers)
      else
        (c.uri, c.headers.Set env.canonicalMIMEHeaderKey c.earlyDataHeaderName
          (RawURLEncoding.EncodeToString b)) := by
  have h : ¬ b.length > c.maxEarlyData := by omega
  by_cases hb : b = [] <;> by_cases hname : c.earlyDataHeaderName = "" <;>
    simp [EarlyWebsocketConn.firstDial, h, hb, hname, Header.Clone, List.length_pos]

theorem EarlyWebsocketConn.firstDial_long (env : Env) (c : EarlyWebsocketConn) (b : List Byte)
    (hlen : c.maxEarlyData < b.length) :
    c.firstDial env b =
      if c.maxEarlyData = 0 then (c.uri, c.headers)
      else if c.earlyDataHeaderName = "" then
        (c.uri ++ RawURLEncoding.EncodeToString (b.take c.maxEarlyData), c.headers)
      else
        (c.uri, c.headers.Set env.canonicalMIMEHeaderKey c.earlyDataHeaderName
          (RawURLEncoding.EncodeToString (b.take c.maxEarlyData))) := by
  have hb : b ≠ [] := by
    intro h
    simp [h] at hlen
  by_cases hmax : c.maxEarlyData = 0 <;> by_cases hname : c.earlyDataHeaderName = "" <;>
    simp [EarlyWebsocketConn.firstDial, hlen, hb, hmax, hname, Header.Clone, List.length_pos]

theorem RawURLEncoding.EncodeToString_nil : RawURLEncoding.EncodeToString [] = "" := by
  decide

theorem Header.Get_Set (canon : String → String) (h : Header) (key value : String) :
    (h.Set canon key value).Get canon key = value := by
  simp [Header.Set, Header.Get]

/-- C2: on an adapter with no inner connection (and `create` open, as it is
whenever there is none), a first `Write` of more than `maxEarlyData` bytes,
when the dial and the follow-up write succeed, makes one dial that carries the first `maxEarlyData`
bytes, base64url-encoded without padding (at the end of the URI when no header
name is configured, else as the value of that header; with a maximum of 0 there
are no such bytes and the dial is the configured one), installs the connection
the dial returned, closes `create`, then writes exactly `b[maxEarlyData:]`
through that connection in one frame, and returns `(len(b), nil)`. -/
theorem EarlyWebsocketConn.Write_long (env : Env) (c : EarlyWebsocketConn) (t : List Event)
    (b : List Byte) (hconn : c.conn = none) (hcreate : c.create = false)
    (hlen : c.maxEarlyData < b.length) :
    (c.earlyDataHeaderName = "" →
      (env.dial t (c.uri ++ RawURLEncoding.EncodeToString (b.take c.maxEarlyData))
        c.headers).err = none →
      env.writeFrame
        (t ++ [Event.dial (c.uri ++ RawURLEncoding.EncodeToString (b.take c.maxEarlyData))
          c.headers]) false (b.drop c.maxEarlyData) = none →
      c.Write env t b =
        { c := { c with
            conn := some (installed (env.dial t
              (c.uri ++ RawURLEncoding.EncodeToString (b.take c.maxEarlyData)) c.headers).conn),
            create := true },
          trace := t ++
            [Event.dial (c.uri ++ RawURLEncoding.EncodeToString (b.take c.maxEarlyData))
              c.headers,
             Event.writeFrame false (b.drop c.maxEarlyData)],
          out := Outcome.returned (b.length, none) }) ∧
    (c.earlyDataHeaderName ≠ "" → 0 < c.maxEarlyData →
      (env.dial t c.uri (c.headers.Set env.canonicalMIMEHeaderKey c.earlyDataHeaderName
        (RawURLEncoding.EncodeToString (b.take c.maxEarlyData)))).err = none →
      env.writeFrame
        (t ++ [Event.dial c.uri (c.headers.Set env.canonicalMIMEHeaderKey
          c.earlyDataHeaderName (RawURLEncoding.EncodeToString (b.take c.maxEarlyData)))])
        false (b.drop c.maxEarlyData) = none →
      c.Write env t b =
        { c := { c with
            conn := some (installed (env.dial t c.uri
              (c.headers.Set env.canonicalMIMEHeaderKey c.earlyDataHeaderName
                (RawURLEncoding.EncodeToString (b.take c.maxEarlyData)))).conn),
            create := true },
          trace := t ++
            [Event.dial c.uri (c.headers.Set env.canonicalMIMEHeaderKey c.earlyDataHeaderName
              (RawURLEncoding.EncodeToString (b.take c.maxEarlyData))),
             Event.writeFrame false (b.drop c.maxEarlyData)],
          out := Outcome.returned (b.length, none) }) ∧
    (c.earlyDataHeaderName ≠ "" → c.maxEarlyData = 0 →
      (env.dial t c.uri c.headers).err = none →
      env.writeFrame (t ++ [Event.dial c.uri c.headers]) false b = none →
      c.Write env t b =
        { c := { c with conn := some (installed (env.dial t c.uri c.headers).conn),
                        create := true },
          trace := t ++ [Event.dial c.uri c.headers, Event.writeFrame false b],
          out := Outcome.returned (b.length, none) }) := by
  have hgt : b.length > c.maxEarlyData := hlen
  rw [EarlyWebsocketConn.Write_first env c t b hconn,
    EarlyWebsocketConn.firstDial_long env c b hlen]
  refine ⟨?_, ?_, ?_⟩
  · intro hname hd hw
    by_cases hmax : c.maxEarlyData = 0
    · simp only [hmax, List.take_zero, RawURLEncoding.EncodeToString_nil, String.append_empty,
        List.drop_zero] at hd hw ⊢
      simp [hd, hw, hcreate, List.length_pos.mp (by omega : 0 < b.length)]
    · simp [hmax, hname, hd, hw, hcreate, hgt]
  · intro hname hmax hd hw
    have hmax0 : c.maxEarlyData ≠ 0 := by omega
    simp [hmax0, hname, hd, hw, hcreate, hgt]
  · intro hname hmax hd hw
    simp only [hmax, List.drop_zero] at hd hw ⊢
    simp [hd, hw, hcreate, hmax, List.length_pos.mp (by omega : 0 < b.length)]

/-- C3: on an adapter with no inner connection (and `create` open, as it is
whenever there is none), a first `Write` of at most `maxEarlyData` bytes, when
the dial succeeds, makes one dial that carries all of `b`, base64url-encoded without padding: at
the end of the URI when no header name is configured, else as the value of
that header (`Header.Get` of the dialled headers returns it); an empty `b` has
nothing to carry and the dial is the configured one.  The connection the dial
returned is installed, nothing is written through it, and the call returns
`(len(b), nil)`. -/
theorem EarlyWebsocketConn.Write_short (env : Env) (c : EarlyWebsocketConn) (t : List Event)
    (b : List Byte) (hconn : c.conn = none) (hcreate : c.create = false)
    (hlen : b.length ≤ c.maxEarlyData) :
    (c.earlyDataHeaderName = "" →
      (env.dial t (c.uri ++ RawURLEncoding.EncodeToString b) c.headers).err = none →
      c.Write env t b =
        { c := { c with
            conn := some (installed (env.dial t (c.uri ++ RawURLEncoding.EncodeToString b)
              c.headers).conn),
            create := true },
          trace := t ++ [Event.dial (c.uri ++ RawURLEncoding.EncodeToString b) c.headers],
          out := Outcome.returned (b.length, none) }) ∧
    (c.earlyDataHeaderName ≠ "" → b ≠ [] →
      (env.dial t c.uri (c.headers.Set env.canonicalMIMEHeaderKey c.earlyDataHeaderName
        (RawURLEncoding.EncodeToString b))).err = none →
      c.Write env t b =
        { c := { c with
            conn := some (installed (env.dial t c.uri
              (c.headers.Set env.canonicalMIMEHeaderKey c.earlyDataHeaderName
                (RawURLEncoding.EncodeToString b))).conn),
            create := true },
          trace := t ++
            [Event.dial c.uri (c.headers.Set env.canonicalMIMEHeaderKey c.earlyDataHeaderName
              (RawURLEncoding.EncodeToString b))],
          out := Outcome.returned (b.length, none) } ∧
      (c.headers.Set env.canonicalMIMEHeaderKey c.earlyDataHeaderName
        (RawURLEncoding.EncodeToString b)).Get env.canonicalMIMEHeaderKey
          c.earlyDataHeaderName = RawURLEncoding.EncodeToString b) ∧
    (c.earlyDataHeaderName ≠ "" → b = [] →
      (env.dial t c.uri c.headers).err = none →
      c.Write env t b =
        { c := { c with conn := some (installed (env.dial t c.uri c.headers).conn),
                        create := true },
          trace := t ++ [Event.dial c.uri c.headers],
          out := Outcome.returned (b.length, none) }) := by
  have hgt : ¬ b.length > c.maxEarlyData := by omega
  rw [EarlyWebsocketConn.Write_first env c t b hconn,
    EarlyWebsocketConn.firstDial_short env c b hlen]
  refine ⟨?_, ?_, ?_⟩
  · intro hname hd
    by_cases hb : b = []
    · subst hb
      simp only [RawURLEncoding.EncodeToString_nil, String.append_empty] at hd ⊢
      simp [hd, hcreate]
    · simp [hb, hname, hd, hcreate, hgt]
  · intro hname hb hd
    refine ⟨?_, Header.Get_Set _ _ _ _⟩
    simp [hb, hname, hd, hcreate, hgt]
  · intro hname hb hd
    subst hb
    simp [hd, hcreate]

/-- C9: a first `Write` or `WriteBuffer` of zero bytes, in either carriage mode
and for every maximum, makes exactly one collaborator call: a dial with the
configured URI and the configured headers, nothing appended and no header
set; no frame is written. -/
theorem EarlyWebsocketConn.Write_empty (env : Env) (c : EarlyWebsocketConn) (t : List Event)
    (hconn : c.conn = none) :
    (c.Write env t []).trace = t ++ [Event.dial c.uri c.headers] ∧
    (c.WriteBuffer env t []).trace = t ++ [Event.dial c.uri c.headers] := by
  have hf : c.firstDial env [] = (c.uri, c.headers) := by
    simp [EarlyWebsocketConn.firstDial]
  rw [EarlyWebsocketConn.Write_first env c t [] hconn,
    EarlyWebsocketConn.WriteBuffer_first env c t [] hconn, hf]
  constructor
  · cases hd : (env.dial t c.uri c.headers).err <;> by_cases hc : c.create = true <;>
      simp [hd, hc]
  · cases hd : (env.dial t c.uri c.headers).err <;> by_cases hc : c.create = true <;>
      simp [hd, hc]

/-- C6: a first `Write` (or `WriteBuffer`) makes a dial, and when that dial fails
it is the only collaborator call: the call returns 0 bytes and
`wrapDialError(response, err)` built from what the dialer returned, and the
adapter is as before, with no inner connection and `create` not closed. -/
theorem EarlyWebsocketConn.Write_dial_fails (env : Env) (c : EarlyWebsocketConn)
    (t : List Event) (b : List Byte) (hconn : c.conn = none) :
    ∃ uri headers,
      (c.Write env t b).trace.take (t.length + 1) = t ++ [Event.dial uri headers] ∧
      (c.WriteBuffer env t b).trace.take (t.length + 1) = t ++ [Event.dial uri headers] ∧
      ∀ e, (env.dial t uri headers).err = some e →
        c.Write env t b =
          { c := c, trace := t ++ [Event.dial uri headers],
            out := Outcome.returned
              (0, env.wrapDialError (env.dial t uri headers).response e) } ∧
        c.WriteBuffer env t b =
          { c := c, trace := t ++ [Event.dial uri headers],
            out := Outcome.returned
              (env.wrapDialError (env.dial t uri headers).response e) } := by
  refine ⟨(c.firstDial env b).1, (c.firstDial env b).2, ?_, ?_, ?_⟩
  · rw [EarlyWebsocketConn.Write_first env c t b hconn]
    cases hd : (env.dial t (c.firstDial env b).1 (c.firstDial env b).2).err <;>
      by_cases hc : c.create = true <;>
      by_cases hl : b.length > c.maxEarlyData <;>
      simp [hd, hc, hl, List.take_append_eq_append_take]
  · rw [EarlyWebsocketConn.WriteBuffer_first env c t b hconn]
    cases hd : (env.dial t (c.firstDial env b).1 (c.firstDial env b).2).err <;>
      by_cases hc : c.create = true <;>
      by_cases hl : b.length > c.maxEarlyData <;>
      simp [hd, hc, hl, List.take_append_eq_append_take]
  · intro e he
    rw [EarlyWebsocketConn.Write_first env c t b hconn,
      EarlyWebsocketConn.WriteBuffer_first env c t b hconn]
    simp [he]

/-- C8, amended: on an adapter with no inner connection, for every behaviour of
the collaborators, `Write(b)` and `WriteBuffer` of a buffer holding `b` make
the same collaborator calls (the same dial, the same follow-up frame), leave
the same adapter, and end the same way with the same error.  On an adapter
whose inner connection is present neither dials nor changes the adapter, and
each hands `b` to the inner connection's operation of its own name in one
call and returns that operation's error: `Write` the answer to a frame
written from the slice, `WriteBuffer` the answer to a frame written from the
buffer. -/
theorem EarlyWebsocketConn.Write_WriteBuffer (env : Env) (c : EarlyWebsocketConn)
    (t : List Event) (b : List Byte) :
    (c.conn = none →
      (c.Write env t b).trace = (c.WriteBuffer env t b).trace ∧
      (c.Write env t b).c = (c.WriteBuffer env t b).c ∧
      (c.Write env t b).out.map Prod.snd = (c.WriteBuffer env t b).out) ∧
    (∀ w, c.conn = some w →
      (c.Write env t b).c = c ∧ (c.WriteBuffer env t b).c = c ∧
      (c.Write env t b).trace = t ++ [Event.writeFrame w.Writer.flag b] ∧
      (c.WriteBuffer env t b).trace = t ++ [Event.writeFrameFromBuffer w.Writer.flag b] ∧
      (c.Write env t b).out.map Prod.snd =
        Outcome.returned (env.writeFrame t w.Writer.flag b) ∧
      (c.WriteBuffer env t b).out =
        Outcome.returned (env.writeFrameFromBuffer t w.Writer.flag b)) := by
  constructor
  · intro hconn
    rw [EarlyWebsocketConn.Write_first env c t b hconn,
      EarlyWebsocketConn.WriteBuffer_first env c t b hconn]
    cases hd : (env.dial t (c.firstDial env b).1 (c.firstDial env b).2).err <;>
      by_cases hc : c.create = true <;>
      by_cases hl : b.length > c.maxEarlyData <;>
      simp [hd, hc, hl, Outcome.map]
    cases hw : env.writeFrame
      (t ++ [Event.dial (c.firstDial env b).1 (c.firstDial env b).2]) false
      (b.drop c.maxEarlyData) <;> simp
  · intro w hconn
    cases hw : env.writeFrame t w.Writer.flag b <;>
      simp [EarlyWebsocketConn.Write, EarlyWebsocketConn.WriteBuffer, hconn, Writer.Write,
        Writer.WriteBuffer, Outcome.map, hw]

/-! ## Sequential runs -/

theorem dialResults_append (env : Env) (a b : List Event) :
    ∀ pre, dialResults env pre (a ++ b) =
      dialResults env pre a ++ dialResults env (pre ++ a) b := by
  induction a with
  | nil => intro pre; simp [dialResults]
  | cons ev a ih =>
    intro pre
    cases ev <;> simp [dialResults, ih]

theorem WebsocketConn.sameConn_refl (w : WebsocketConn) : w.sameConn w := by
  simp [WebsocketConn.sameConn]

theorem step_connected (env : Env) (k : Config) (op : Op) (w : WebsocketConn)
    (hconn : k.c.conn = some w) :
    (step env k op).2 = Ending.returned ∧
    (step env k op).1.c.create = k.c.create ∧
    (∃ w1, (step env k op).1.c.conn = some w1 ∧ w1.sameConn w) ∧
    (∃ new, (step env k op).1.trace = k.trace ++ new ∧ dialResults env k.trace new = []) ∧
    (∀ b, op = Op.write b →
      (step env k op).1.trace = k.trace ++ [Event.writeFrame w.Writer.flag b]) := by
  cases op with
  | read b =>
    have hs := (WebsocketConn.Read_spec w b).1
    refine ⟨?_, ?_, ⟨(w.Read b).c, ?_, hs⟩, ⟨[], ?_, rfl⟩, ?_⟩ <;>
      simp [step, EarlyWebsocketConn.Read, hconn, Step.config]
  | write b =>
    refine ⟨?_, ?_, ⟨w, ?_, w.sameConn_refl⟩, ⟨[Event.writeFrame w.Writer.flag b], ?_, rfl⟩, ?_⟩ <;>
      cases hw : env.writeFrame k.trace w.Writer.flag b <;>
      simp [step, EarlyWebsocketConn.Write, hconn, Step.config, Writer.Write, hw]
  | writeBuffer b =>
    refine ⟨?_, ?_, ⟨w, ?_, w.sameConn_refl⟩,
      ⟨[Event.writeFrameFromBuffer w.Writer.flag b], ?_, rfl⟩, ?_⟩ <;>
      simp [step, EarlyWebsocketConn.WriteBuffer, hconn, Step.config, Writer.WriteBuffer]
  | close =>
    cases hw : env.writeControl k.trace CloseMessage (FormatCloseMessage CloseNormalClosure [])
    · refine ⟨?_, ?_, ⟨w, ?_, w.sameConn_refl⟩,
        ⟨[Event.writeControl CloseMessage (FormatCloseMessage CloseNormalClosure [])], ?_, rfl⟩,
        ?_⟩ <;>
      simp [step, EarlyWebsocketConn.Close, hconn, Step.config, WebsocketConn.Close,
        websocket.Conn.WriteControl, websocket.Conn.Close, hw]
    · refine ⟨?_, ?_, ⟨w, ?_, w.sameConn_refl⟩,
        ⟨[Event.writeControl CloseMessage (FormatCloseMessage CloseNormalClosure []),
          Event.close], ?_, rfl⟩, ?_⟩ <;>
      simp [step, EarlyWebsocketConn.Close, hconn, Step.config, WebsocketConn.Close,
        websocket.Conn.WriteControl, websocket.Conn.Close, hw]
  | localAddr =>
    refine ⟨?_, ?_, ⟨w, ?_, w.sameConn_refl⟩, ⟨[], ?_, rfl⟩, ?_⟩ <;>
      simp [step, EarlyWebsocketConn.LocalAddr, hconn, Step.config]
  | remoteAddr =>
    refine ⟨?_, ?_, ⟨w, ?_, w.sameConn_refl⟩, ⟨[], ?_, rfl⟩, ?_⟩ <;>
      simp [step, EarlyWebsocketConn.RemoteAddr, hconn, Step.config]
  | setDeadline d =>
    refine ⟨?_, ?_, ⟨w, ?_, w.sameConn_refl⟩, ⟨[], ?_, rfl⟩, ?_⟩ <;>
      simp [step, EarlyWebsocketConn.SetDeadline, hconn, Step.config]
  | setReadDeadline d =>
    refine ⟨?_, ?_, ⟨w, ?_, w.sameConn_refl⟩, ⟨[Event.setReadDeadline d], ?_, rfl⟩, ?_⟩ <;>
      simp [step, EarlyWebsocketConn.SetReadDeadline, hconn, Step.config]
  | setWriteDeadline d =>
    refine ⟨?_, ?_, ⟨w, ?_, w.sameConn_refl⟩, ⟨[Event.setWriteDeadline d], ?_, rfl⟩, ?_⟩ <;>
      simp [step, EarlyWebsocketConn.SetWriteDeadline, hconn, Step.config]
  | frontHeadroom =>
    refine ⟨?_, ?_, ⟨w, ?_, w.sameConn_refl⟩, ⟨[], ?_, rfl⟩, ?_⟩ <;>
      simp [step, EarlyWebsocketConn.FrontHeadroom, hconn, Step.config]

theorem step_unconnected (env : Env) (k : Config) (op : Op)
    (hconn : k.c.conn = none) (hcreate : k.c.create = false) :
    (step env k op).2 ≠ Ending.panicked ∧
    (((step env k op).1.c = k.c ∧
        ∃ new, (step env k op).1.trace = k.trace ++ new ∧
          (dialResults env k.trace new = [] ∨ dialResults env k.trace new = [false])) ∨
      ((step env k op).1.c.conn.isSome = true ∧ (step env k op).1.c.create = true ∧
        ∃ new, (step env k op).1.trace = k.trace ++ new ∧
          dialResults env k.trace new = [true])) := by
  cases op with
  | read b =>
    refine ⟨?_, Or.inl ⟨?_, [], ?_, Or.inl rfl⟩⟩ <;>
      simp [step, EarlyWebsocketConn.Read, hconn, hcreate, Step.config]
  | write b =>
    simp only [step]
    rw [EarlyWebsocketConn.Write_first env k.c k.trace b hconn]
    cases hd : (env.dial k.trace (k.c.firstDial env b).1 (k.c.firstDial env b).2).err with
    | some err =>
      refine ⟨?_, Or.inl ⟨?_, [Event.dial (k.c.firstDial env b).1 (k.c.firstDial env b).2],
        ?_, Or.inr ?_⟩⟩ <;> simp [Step.config, dialResults, hd]
    | none =>
      by_cases hl : b.length > k.c.maxEarlyData
      · refine ⟨?_, Or.inr ⟨?_, ?_,
          [Event.dial (k.c.firstDial env b).1 (k.c.firstDial env b).2,
            Event.writeFrame false (b.drop k.c.maxEarlyData)], ?_, ?_⟩⟩ <;>
          simp [Step.config, dialResults, hd, hcreate, hl]
      · refine ⟨?_, Or.inr ⟨?_, ?_,
          [Event.dial (k.c.firstDial env b).1 (k.c.firstDial env b).2], ?_, ?_⟩⟩ <;>
          simp [Step.config, dialResults, hd, hcreate, hl]
  | writeBuffer b =>
    simp only [step]
    rw [EarlyWebsocketConn.WriteBuffer_first env k.c k.trace b hconn]
    cases hd : (env.dial k.trace (k.c.firstDial env b).1 (k.c.firstDial env b).2).err with
    | some err =>
      refine ⟨?_, Or.inl ⟨?_, [Event.dial (k.c.firstDial env b).1 (k.c.firstDial env b).2],
        ?_, Or.inr ?_⟩⟩ <;> simp [Step.config, dialResults, hd]
    | none =>
      by_cases hl : b.length > k.c.maxEarlyData
      · refine ⟨?_, Or.inr ⟨?_, ?_,
          [Event.dial (k.c.firstDial env b).1 (k.c.firstDial env b).2,
            Event.writeFrame false (b.drop k.c.maxEarlyData)], ?_, ?_⟩⟩ <;>
          simp [Step.config, dialResults, hd, hcreate, hl]
      · refine ⟨?_, Or.inr ⟨?_, ?_,
          [Event.dial (k.c.firstDial env b).1 (k.c.firstDial env b).2], ?_, ?_⟩⟩ <;>
          simp [Step.config, dialResults, hd, hcreate, hl]
  | close =>
    refine ⟨?_, Or.inl ⟨?_, [], ?_, Or.inl rfl⟩⟩ <;>
      simp [step, EarlyWebsocketConn.Close, hconn, Step.config]
  | localAddr =>
    refine ⟨?_, Or.inl ⟨?_, [], ?_, Or.inl rfl⟩⟩ <;>
      simp [step, EarlyWebsocketConn.LocalAddr, hconn, Step.config]
  | remoteAddr =>
    refine ⟨?_, Or.inl ⟨?_, [], ?_, Or.inl rfl⟩⟩ <;>
      simp [step, EarlyWebsocketConn.RemoteAddr, hconn, Step.config]
  | setDeadline d =>
    refine ⟨?_, Or.inl ⟨?_, [], ?_, Or.inl rfl⟩⟩ <;>
      simp [step, EarlyWebsocketConn.SetDeadline, hconn, Step.config]
  | setReadDeadline d =>
    refine ⟨?_, Or.inl ⟨?_, [], ?_, Or.inl rfl⟩⟩ <;>
      simp [step, EarlyWebsocketConn.SetReadDeadline, hconn, Step.config]
  | setWriteDeadline d =>
    refine ⟨?_, Or.inl ⟨?_, [], ?_, Or.inl rfl⟩⟩ <;>
      simp [step, EarlyWebsocketConn.SetWriteDeadline, hconn, Step.config]
  | frontHeadroom =>
    refine ⟨?_, Or.inl ⟨?_, [], ?_, Or.inl rfl⟩⟩ <;>
      simp [step, EarlyWebsocketConn.FrontHeadroom, hconn, Step.config]

/-- What a call of a run guarantees, given the invariant before it. -/
theorem step_inv (env : Env) (k : Config) (op : Op) (hinv : k.Inv env) :
    (step env k op).2 ≠ Ending.panicked ∧
    (step env k op).1.Inv env ∧
    (∀ w, k.c.conn = some w →
      ∃ w1, (step env k op).1.c.conn = some w1 ∧ w1.sameConn w) ∧
    (k.c.conn.isSome = true →
      dialResults env [] (step env k op).1.trace = dialResults env [] k.trace) ∧
    (∀ w b, k.c.conn = some w → op = Op.write b →
      (step env k op).1.trace = k.trace ++ [Event.writeFrame w.Writer.flag b]) := by
  obtain ⟨hcreate, m, hm⟩ := hinv
  cases hconn : k.c.conn with
  | some w =>
    obtain ⟨h1, h2, ⟨w1, h3, h3s⟩, ⟨new, h4, h4d⟩, h5⟩ := step_connected env k op w hconn
    have hd : dialResults env [] (step env k op).1.trace = dialResults env [] k.trace := by
      rw [h4, dialResults_append]
      simp [h4d]
    refine ⟨by simp [h1], ⟨?_, m, ?_⟩, ?_, fun _ => hd, ?_⟩
    · rw [h2, hcreate, hconn, h3]
      rfl
    · rw [hd, hm, hconn, h3]
      rfl
    · intro w0 hw0
      cases hw0
      exact ⟨w1, h3, h3s⟩
    · intro w0 b hw0 hop
      cases hw0
      exact h5 b hop
  | none =>
    have hcf : k.c.create = false := by rw [hcreate, hconn]; rfl
    obtain ⟨h1, h2⟩ := step_unconnected env k op hconn hcf
    refine ⟨h1, ?_, ?_, ?_, ?_⟩
    rotate_left
    · intro w hw
      cases hw
    · intro h
      cases h
    · intro w b hw
      cases hw
    rw [hconn] at hm
    simp only [Option.isSome_none, Bool.false_eq_true, if_false, List.append_nil] at hm
    rcases h2 with ⟨hc, new, ht, hn | hn⟩ | ⟨hs, hc, new, ht, hn⟩
    · refine ⟨by rw [hc]; exact hcreate, m, ?_⟩
      rw [ht, dialResults_append, hm, List.nil_append, hn, hc, hconn]
      simp
    · refine ⟨by rw [hc]; exact hcreate, m + 1, ?_⟩
      rw [ht, dialResults_append, hm, List.nil_append, hn, hc, hconn]
      simp [List.replicate_succ']
    · refine ⟨by rw [hc, hs], m, ?_⟩
      rw [ht, dialResults_append, hm, List.nil_append, hn, hs]
      simp

theorem transitions_before_inv (env : Env) (ops : List Op) :
    ∀ k : Config, k.Inv env → ∀ tr ∈ transitions env k ops,
      tr.before.Inv env ∧ tr.after = (step env tr.before tr.op).1 ∧
        tr.ending = (step env tr.before tr.op).2 := by
  induction ops with
  | nil => intro k _ tr htr; simp [transitions] at htr
  | cons op ops ih =>
    intro k hinv tr htr
    simp only [transitions, List.mem_cons] at htr
    rcases htr with rfl | htr
    · exact ⟨hinv, rfl, rfl⟩
    · by_cases he : (step env k op).2 = Ending.returned
      · rw [if_pos he] at htr
        exact ih _ (step_inv env k op hinv).2.1 tr htr
      · rw [if_neg he] at htr
        simp at htr

theorem transitions_connected (env : Env) (ops : List Op) :
    ∀ k : Config, k.c.conn.isSome = true →
      (transitions env k ops).filter Transition.installs = [] := by
  induction ops with
  | nil => intro k _; simp [transitions]
  | cons op ops ih =>
    intro k hk
    obtain ⟨w, hw⟩ := Option.isSome_iff_exists.mp hk
    obtain ⟨h1, -, ⟨w1, h3, -⟩, -, -⟩ := step_connected env k op w hw
    simp only [transitions, h1, if_true]
    rw [List.filter_cons_of_neg (by simp [Transition.installs, hw])]
    exact ih _ (by rw [h3]; rfl)

theorem transitions_installs (env : Env) (ops : List Op) :
    ∀ k : Config, ((transitions env k ops).filter Transition.installs).length ≤ 1 := by
  induction ops with
  | nil => intro k; simp [transitions]
  | cons op ops ih =>
    intro k
    simp only [transitions]
    by_cases he : (step env k op).2 = Ending.returned
    · rw [if_pos he]
      by_cases hi : (step env k op).1.c.conn.isSome = true
      · have := transitions_connected env ops _ hi
        rw [List.filter_cons, this]
        split <;> simp
      · rw [List.filter_cons_of_neg (by simp [Transition.installs, hi])]
        exact ih _
    · rw [if_neg he, List.filter_cons]
      split <;> simp

/-- C7: in every sequential run of calls on an adapter, from its creation: no
call panics (so `create` is never closed twice); before and after every call
`create` is closed exactly when the inner connection is present; an inner
connection that is present stays present and stays the same connection; the
inner connection is installed by at most one call of the run; once it is
present no call dials (a `Write` then hands its bytes to the inner connection
as one frame); and of the dials of the trace all but the last failed, the
last having succeeded exactly when the inner connection is present, whatever
the follow-up write returned. -/
theorem EarlyWebsocketConn.run_invariant (env : Env) (client : Client) (ops : List Op) :
    (∀ tr ∈ transitions env { c := EarlyWebsocketConn.new client, trace := [] } ops,
      tr.ending ≠ Ending.panicked ∧
      tr.before.c.create = tr.before.c.conn.isSome ∧
      tr.after.c.create = tr.after.c.conn.isSome ∧
      (∀ w, tr.before.c.conn = some w →
        ∃ w1, tr.after.c.conn = some w1 ∧ w1.sameConn w) ∧
      (tr.before.c.conn.isSome = true →
        dialResults env [] tr.after.trace = dialResults env [] tr.before.trace) ∧
      (∀ w b, tr.before.c.conn = some w → tr.op = Op.write b →
        tr.after.trace = tr.before.trace ++ [Event.writeFrame w.Writer.flag b]) ∧
      (∃ m, dialResults env [] tr.after.trace =
        List.replicate m false ++ (if tr.after.c.conn.isSome then [true] else []))) ∧
    ((transitions env { c := EarlyWebsocketConn.new client, trace := [] } ops).filter
      Transition.installs).length ≤ 1 := by
  have h0 : Config.Inv env { c := EarlyWebsocketConn.new client, trace := [] } := by
    refine ⟨rfl, 0, ?_⟩
    simp [dialResults, EarlyWebsocketConn.new]
  refine ⟨?_, transitions_installs env ops _⟩
  intro tr htr
  obtain ⟨hb, ha, he⟩ := transitions_before_inv env ops _ h0 tr htr
  obtain ⟨h1, h2, h3, h4, h5⟩ := step_inv env tr.before tr.op hb
  rw [ha, he]
  exact ⟨h1, hb.1, h2.1, h3, h4, fun w b hw hop => h5 w b hw hop, h2.2⟩

/-! ## The claims at sample values -/

theorem WebsocketConn.readAll_prefix_witness :
    sampleServerConn.reader = none ∧
    sampleServerConn.readAll [[0], [0, 0, 0], [0, 0], [0, 0, 0, 0], [0]] =
      [[1], [2], [3, 4], [5], []] ∧
    (sampleServerConn.readAll [[0], [0, 0, 0], [0, 0], [0, 0, 0, 0], [0]]).flatten <+:
      sampleServerConn.Conn.incoming.flatten :=
  ⟨rfl,
   by simp [sampleServerConn, NewServerConn, WebsocketConn.readAll, WebsocketConn.Read,
        WebsocketConn.Read.loop, websocket.Conn.NextReader, messageReader.Read,
        messageReader.count, IsMulti, wrapError, IsCloseError],
   (WebsocketConn.readAll_prefix sampleServerConn
      [[0], [0, 0, 0], [0, 0], [0, 0, 0, 0], [0]]).2.2 rfl⟩

theorem wrapError_spec_witness :
    wrapError (some (Error.closeError 1000 "bye")) = some Error.eof ∧
    wrapError (some (Error.closeError 1006 "")) = some Error.errClosed ∧
    wrapError (some (Error.closeError 1001 "going away")) =
      some (Error.closeError 1001 "going away") ∧
    wrapError none = none :=
  ⟨(wrapError_spec (some (Error.closeError 1000 "bye"))).1 "bye" rfl,
   (wrapError_spec (some (Error.closeError 1006 ""))).2.1 "" rfl,
   (wrapError_spec (some (Error.closeError 1001 "going away"))).2.2
     (by simp [CloseNormalClosure]) (by simp [CloseAbnormalClosure]),
   (wrapError_spec none).2.2 (by simp) (by simp)⟩

theorem WebsocketConn.Read_normal_closure_witness :
    sampleDrainedConn.Conn.readErr = Error.closeError CloseNormalClosure "bye" ∧
    sampleDrainedConn.pending = [] ∧
    (sampleDrainedConn.Read [0, 0]).n = 0 ∧
    (sampleDrainedConn.Read [0, 0]).err = some Error.eof :=
  ⟨rfl, by decide,
   (WebsocketConn.Read_normal_closure sampleDrainedConn [0, 0] "bye" rfl).2 (by decide)⟩

theorem WebsocketConn.Close_spec_witness :
    sampleServerConn.Close (sampleEnv none none) [] =
      ([Event.writeControl 8 [3, 232]], none) ∧
    sampleServerConn.Close sampleClosingEnv [] =
      ([Event.writeControl 8 [3, 232], Event.close], some Error.errClosed) :=
  ⟨(WebsocketConn.Close_spec (sampleEnv none none) sampleServerConn []).2.1 rfl,
   (WebsocketConn.Close_spec sampleClosingEnv sampleServerConn []).2.2
     (Error.other "i/o timeout") rfl⟩

theorem EarlyWebsocketConn.Write_long_witness :
    (EarlyWebsocketConn.new sampleClient).conn = none ∧
    sampleClient.maxEarlyData = 16 ∧
    RawURLEncoding.EncodeToString (List.replicate 16 65) = "QUFBQUFBQUFBQUFBQUFBQQ" ∧
    (EarlyWebsocketConn.new sampleClient).Write (sampleEnv none none) []
        (List.replicate 16 65 ++ List.replicate 4 88) =
      { c := { toClient := sampleClient, conn := some (installed sampleConn), create := true },
        trace :=
          [Event.dial ("ws://example.org/ws?ed=" ++ "QUFBQUFBQUFBQUFBQUFBQQ")
             { entries := [("Host", ["example.org"])] },
           Event.writeFrame false [88, 88, 88, 88]],
        out := Outcome.returned (20, none) } :=
  ⟨rfl, rfl, by decide,
   (EarlyWebsocketConn.Write_long (sampleEnv none none) (EarlyWebsocketConn.new sampleClient) []
      (List.replicate 16 65 ++ List.replicate 4 88) rfl rfl (by decide)).1 rfl rfl rfl⟩

theorem EarlyWebsocketConn.Write_short_witness :
    (EarlyWebsocketConn.new sampleHeaderClient).conn = none ∧
    RawURLEncoding.EncodeToString [104, 105, 33] = "aGkh" ∧
    (EarlyWebsocketConn.new sampleHeaderClient).Write (sampleEnv none none) [] [104, 105, 33] =
      { c := { toClient := sampleHeaderClient, conn := some (installed sampleConn),
               create := true },
        trace :=
          [Event.dial "ws://example.org/ws"
             { entries := [("Sec-WebSocket-Protocol", ["aGkh"]), ("Host", ["example.org"])] }],
        out := Outcome.returned (3, none) } :=
  ⟨rfl, by decide,
   ((EarlyWebsocketConn.Write_short (sampleEnv none none)
      (EarlyWebsocketConn.new sampleHeaderClient) [] [104, 105, 33] rfl rfl
      (by decide)).2.1 (by decide) (by decide) rfl).1.trans (by decide)⟩

theorem EarlyWebsocketConn.Write_dial_fails_witness :
    (EarlyWebsocketConn.new sampleClient).conn = none ∧
    (EarlyWebsocketConn.new sampleClient).Write
        (sampleEnv (some (Error.other "connection refused")) none) [] [104, 105, 33] =
      { c := EarlyWebsocketConn.new sampleClient,
        trace := [Event.dial "ws://example.org/ws?ed=aGkh"
          { entries := [("Host", ["example.org"])] }],
        out := Outcome.returned (0, some (Error.other "Bad Gateway")) } ∧
    ∃ uri headers,
      (((EarlyWebsocketConn.new sampleClient).Write
          (sampleEnv (some (Error.other "connection refused")) none) []
          [104, 105, 33]).trace.take 1 = [Event.dial uri headers]) ∧
      (((EarlyWebsocketConn.new sampleClient).WriteBuffer
          (sampleEnv (some (Error.other "connection refused")) none) []
          [104, 105, 33]).trace.take 1 = [Event.dial uri headers]) ∧
      ∀ e, ((sampleEnv (some (Error.other "connection refused")) none).dial [] uri
          headers).err = some e →
        (EarlyWebsocketConn.new sampleClient).Write
            (sampleEnv (some (Error.other "connection refused")) none) [] [104, 105, 33] =
          { c := EarlyWebsocketConn.new sampleClient, trace := [] ++ [Event.dial uri headers],
            out := Outcome.returned (0, (sampleEnv (some (Error.other "connection refused"))
              none).wrapDialError ((sampleEnv (some (Error.other "connection refused"))
                none).dial [] uri headers).response e) } ∧
        (EarlyWebsocketConn.new sampleClient).WriteBuffer
            (sampleEnv (some (Error.other "connection refused")) none) [] [104, 105, 33] =
          { c := EarlyWebsocketConn.new sampleClient, trace := [] ++ [Event.dial uri headers],
            out := Outcome.returned ((sampleEnv (some (Error.other "connection refused"))
              none).wrapDialError ((sampleEnv (some (Error.other "connection refused"))
                none).dial [] uri headers).response e) } :=
  ⟨rfl, by decide,
   EarlyWebsocketConn.Write_dial_fails (sampleEnv (some (Error.other "connection refused")) none)
     (EarlyWebsocketConn.new sampleClient) [] [104, 105, 33] rfl⟩

theorem EarlyWebsocketConn.Write_empty_witness :
    (EarlyWebsocketConn.new sampleHeaderClient).conn = none ∧
    ((EarlyWebsocketConn.new sampleHeaderClient).Write (sampleEnv none none) [] []).trace =
      [Event.dial "ws://example.org/ws" { entries := [("Host", ["example.org"])] }] ∧
    ((EarlyWebsocketConn.new sampleHeaderClient).WriteBuffer (sampleEnv none none) [] []).trace =
      [Event.dial "ws://example.org/ws" { entries := [("Host", ["example.org"])] }] :=
  ⟨rfl, EarlyWebsocketConn.Write_empty (sampleEnv none none)
    (EarlyWebsocketConn.new sampleHeaderClient) [] rfl⟩

theorem EarlyWebsocketConn.run_invariant_witness :
    (transitions sampleRetryEnv { c := EarlyWebsocketConn.new sampleClient, trace := [] }
        [Op.write [1], Op.write (List.replicate 20 65), Op.write [2], Op.close]).map
      (fun tr => (tr.ending, tr.after.c.conn.isSome, tr.after.c.create,
        dialResults sampleRetryEnv [] tr.after.trace, tr.after.trace.length)) =
      [(Ending.returned, false, false, [false], 1),
       (Ending.returned, true, true, [false, true], 3),
       (Ending.returned, true, true, [false, true], 4),
       (Ending.returned, true, true, [false, true], 5)] ∧
    ((transitions sampleRetryEnv { c := EarlyWebsocketConn.new sampleClient, trace := [] }
        [Op.write [1], Op.write (List.replicate 20 65), Op.write [2], Op.close]).filter
      Transition.installs).length ≤ 1 :=
  ⟨by decide,
   (EarlyWebsocketConn.run_invariant sampleRetryEnv sampleClient
      [Op.write [1], Op.write (List.replicate 20 65), Op.write [2], Op.close]).2⟩

theorem EarlyWebsocketConn.Write_WriteBuffer_witness :
    (EarlyWebsocketConn.new sampleClient).conn = none ∧
    ((EarlyWebsocketConn.new sampleClient).Write
        (sampleEnv none (some (Error.other "broken pipe"))) []
        (List.replicate 20 65)).trace =
      ((EarlyWebsocketConn.new sampleClient).WriteBuffer
        (sampleEnv none (some (Error.other "broken pipe"))) []
        (List.replicate 20 65)).trace ∧
    ((EarlyWebsocketConn.new sampleClient).WriteBuffer
        (sampleEnv none (some (Error.other "broken pipe"))) []
        (List.replicate 20 65)).out =
      Outcome.returned (some (Error.other "broken pipe")) ∧
    sampleConnected.conn = some (installed sampleConn) ∧
    (sampleConnected.WriteBuffer sampleSplitEnv [] [104, 105]).trace =
      [] ++ [Event.writeFrameFromBuffer (installed sampleConn).Writer.flag [104, 105]] :=
  ⟨rfl,
   ((EarlyWebsocketConn.Write_WriteBuffer (sampleEnv none (some (Error.other "broken pipe")))
      (EarlyWebsocketConn.new sampleClient) [] (List.replicate 20 65)).1 rfl).1,
   by decide, rfl,
   ((EarlyWebsocketConn.Write_WriteBuffer sampleSplitEnv sampleConnected [] [104, 105]).2
      (installed sampleConn) rfl).2.2.2.1⟩

/-- C8 as stated fails on an adapter whose inner connection is present: with a
connection that refuses a frame written from a slice and accepts one written
from a buffer, `Write` returns the error and `WriteBuffer` returns nil, and
the two make different calls on the connection. -/
theorem EarlyWebsocketConn.Write_WriteBuffer_differ :
    (sampleConnected.Write sampleSplitEnv [] [104, 105]).out =
      Outcome.returned (0, some (Error.other "websocket: close sent")) ∧
    (sampleConnected.WriteBuffer sampleSplitEnv [] [104, 105]).out = Outcome.returned none ∧
    (sampleConnected.Write sampleSplitEnv [] [104, 105]).out.map Prod.snd ≠
      (sampleConnected.WriteBuffer sampleSplitEnv [] [104, 105]).out ∧
    (sampleConnected.Write sampleSplitEnv [] [104, 105]).trace =
      [Event.writeFrame false [104, 105]] ∧
    (sampleConnected.WriteBuffer sampleSplitEnv [] [104, 105]).trace =
      [Event.writeFrameFromBuffer false [104, 105]] := by
  decide

end V2rayWebsocket
